import Mathlib

/-!
Shallow embedding of the listenlabs admission-decision engine
(`src/bouncer.py`, `src/scenario1.py`, `src/scenario2.py`, `src/scenario3.py`).

Python `dict`s are modelled as association lists (first match wins, which
coincides with dict semantics because Python dict keys are unique);
Python `int` is modelled as `ℤ` and Python `float` as `ℚ` (ideal, overflow-
and rounding-free arithmetic, adequate at the magnitudes the program uses).
Lean's total division `x / 0 = 0` stands in for Python's `ZeroDivisionError`
on paths that the program never reaches with a zero divisor.
-/

/-- Attribute identifiers (Python `str` keys). -/
abbrev Attr := String

/-- An association list modelling a Python `dict` keyed by attributes. -/
abbrev Dict (β : Type) := List (Attr × β)

/-- `m.get(a)` returning an `Option`: the value at the first matching key. -/
def alookup {β : Type} (m : Dict β) (a : Attr) : Option β :=
  (m.find? (fun p => p.1 == a)).map Prod.snd

/-- Python `m.get(a, d)`: lookup with default. -/
def aget {β : Type} (m : Dict β) (a : Attr) (d : β) : β :=
  (alookup m a).getD d

/-- A candidate: Python `Dict[str, bool]` of attribute flags. -/
abbrev Person := Dict Bool

/-- Python `person.get(a, False)`. -/
def pget (person : Person) (a : Attr) : Bool :=
  aget person a false

/-- The mutable `GameState` dataclass of `src/bouncer.py`.
`N` is capacity, `constraints` the per-attribute minimum counts,
`counts` the admitted tallies, `freqs` the online frequency estimates,
`corr` the static correlation matrix, `seen_counts`/`total_seen` the raw
observation tallies. -/
structure GameState where
  N : ℤ
  constraints : Dict ℤ
  counts : Dict ℤ
  freqs : Dict ℚ
  corr : Dict (Dict ℚ)
  admitted_count : ℤ
  rejected_local : ℤ
  seen_counts : Dict ℤ
  total_seen : ℤ
  accept_all_after_min_met : Bool

/-- `bouncer.hard_safety`: worst-case feasibility guard; `False` as soon as
some constrained attribute the candidate lacks has `(R - 1) < need`. -/
def hard_safety (person : Person) (state : GameState) : Bool :=
  let R := state.N - state.admitted_count
  state.constraints.all (fun aM =>
    let need := max 0 (aM.2 - aget state.counts aM.1 0)
    !(!(pget person aM.1) && decide (R - 1 < need)))

/-- `bouncer.deficit_first`: candidate carries some attribute whose raw
deficit `M_a - counts[a]` is positive. -/
def deficit_first (person : Person) (state : GameState) : Bool :=
  state.constraints.any (fun aM =>
    decide (aM.2 - aget state.counts aM.1 0 > 0) && pget person aM.1)

/-- `bouncer.constraint_score`: direct urgency contribution plus a positive
correlation bonus toward still-needed attributes. -/
def constraint_score (person : Person) (state : GameState)
    (w_help w_penalty w_corr : ℚ) : ℚ :=
  let R : ℤ := max 1 (state.N - state.admitted_count)
  let urgency : Attr → ℤ → ℚ := fun a M =>
    (max 0 (M - aget state.counts a 0) : ℤ) / (R : ℚ)
  let s1 : ℚ := state.constraints.foldl (fun s aM =>
    if pget person aM.1 then s + w_help * urgency aM.1 aM.2
    else s - w_penalty * urgency aM.1 aM.2) 0
  person.foldl (fun s av =>
    if av.2 then
      state.constraints.foldl (fun s aM =>
        if max 0 (aM.2 - aget state.counts aM.1 0) ≤ 0 then s
        else
          let c := aget (aget state.corr av.1 []) aM.1 0
          if c > 0 then s + w_corr * c * urgency aM.1 aM.2 else s) s
    else s) s1

/-- The `max_pressure` fold inside `bouncer.dynamic_threshold`, factored out
so the monotonicity statement can hold it fixed. -/
def max_pressure_dyn (state : GameState) : ℚ :=
  state.constraints.foldl (fun mp aM =>
    let required_rate : ℚ := if state.N > 0 then (aM.2 : ℚ) / (state.N : ℚ) else 0
    let current_rate : ℚ :=
      ((aget state.counts aM.1 0 : ℤ) : ℚ) / ((max 1 state.admitted_count : ℤ) : ℚ)
    let pressure := required_rate - current_rate
    if pressure > mp then pressure else mp) 0

/-- `bouncer.dynamic_threshold`. -/
def dynamic_threshold (state : GameState) (base_start : ℚ) : ℚ :=
  let progress : ℚ :=
    if state.N > 0 then (state.admitted_count : ℚ) / (state.N : ℚ) else 0
  let base := base_start * (1 - progress)
  base + max_pressure_dyn state

/-- `bouncer.conservative_endgame`: expected-value endgame feasibility. -/
def conservative_endgame (person : Person) (state : GameState) : Bool :=
  let R := state.N - state.admitted_count
  state.constraints.all (fun aM =>
    let cur := aget state.counts aM.1 0 + (if pget person aM.1 then 1 else 0)
    let exp_max : ℚ := (cur : ℚ) + ((R : ℚ) - 1) * aget state.freqs aM.1 0
    !(decide (exp_max < (aM.2 : ℚ))))

/-- The prior weight `w = min(0.9, k0 / max(1, total_seen))` used by
`bouncer.update_adaptive_freqs`. -/
def prior_weight (total_seen : ℤ) (k0 : ℤ) : ℚ :=
  min 0.9 ((k0 : ℚ) / ((max 1 total_seen : ℤ) : ℚ))

/-- `bouncer.update_adaptive_freqs` (pure form: returns the updated state). -/
def update_adaptive_freqs (state : GameState) (k0 : ℤ) : GameState :=
  if state.total_seen ≤ 0 then state
  else
    let w := prior_weight state.total_seen k0
    { state with freqs := state.freqs.map (fun af =>
        let obs : ℚ := ((aget state.seen_counts af.1 0 : ℤ) : ℚ) / (state.total_seen : ℚ)
        (af.1, w * af.2 + (1 - w) * obs)) }

/-- `bouncer.all_constraints_met`. -/
def all_constraints_met (state : GameState) : Bool :=
  state.constraints.all (fun aM => !(decide (aget state.counts aM.1 0 < aM.2)))

/-- `bouncer.enhanced_correlation_score`. -/
def enhanced_correlation_score (person : Person) (state : GameState)
    (lookahead_depth : ℤ) : ℚ :=
  let R := state.N - state.admitted_count
  person.foldl (fun score av =>
    if av.2 then
      state.constraints.foldl (fun score aM =>
        if aM.1 == av.1 then score
        else
          let correlation := aget (aget state.corr av.1 []) aM.1 0
          if correlation ≤ 0 then score
          else
            let need := max 0 (aM.2 - aget state.counts aM.1 0)
            if need ≤ 0 then score
            else
              let expected_future := correlation * aget state.freqs aM.1 (1/2)
              let discount : ℚ := 1 / (1 + (lookahead_depth : ℚ) * (1 - correlation))
              score + expected_future * discount * ((need : ℚ) / (R : ℚ))) score
    else score) 0

/-- `bouncer.ScenarioConfig`. -/
structure ScenarioConfig where
  endgame_size : ℤ
  w_help : ℚ
  w_penalty : ℚ
  w_corr : ℚ
  base_start : ℚ
  buffer_multiplier : ℚ

/-- `bouncer.SCENARIO_CONFIGS`, as used via
`SCENARIO_CONFIGS.get(scenario, SCENARIO_CONFIGS[2])`. -/
def SCENARIO_CONFIGS (scenario : ℤ) : ScenarioConfig :=
  if scenario = 1 then ⟨30, 1.5, 0.3, 0.15, 0.3, 0⟩
  else if scenario = 3 then ⟨100, 3.0, 0.8, 0.3, 0.7, 0.1⟩
  else ⟨50, 2.0, 0.5, 0.2, 0.5, 0.05⟩

/-- The `max_pressure` fold inside `bouncer.adaptive_threshold_with_history`
(written with `max`, as in the source), factored out so the monotonicity
statement can hold it fixed. -/
def max_pressure_hist (state : GameState) : ℚ :=
  state.constraints.foldl (fun mp aM =>
    let required_rate : ℚ := (aM.2 : ℚ) / (state.N : ℚ)
    let current_rate : ℚ :=
      ((aget state.counts aM.1 0 : ℤ) : ℚ) / ((max 1 state.admitted_count : ℤ) : ℚ)
    max mp (required_rate - current_rate)) 0

/-- The last-`window_size` slice `rejection_history[-window_size:]` of a
Python list (negative-index slicing included for faithfulness). -/
def history_slice (rejection_history : List ℤ) (window_size : ℤ) : List ℤ :=
  if window_size = 0 then rejection_history
  else if window_size > 0 then
    rejection_history.drop (rejection_history.length - window_size.toNat)
  else rejection_history.drop window_size.natAbs

/-- `bouncer.adaptive_threshold_with_history`. -/
def adaptive_threshold_with_history (state : GameState) (base_start : ℚ)
    (rejection_history : List ℤ) (window_size : ℤ) : ℚ :=
  let progress : ℚ := (state.admitted_count : ℚ) / (state.N : ℚ)
  let base := base_start * (1 - progress)
  let max_pressure := max_pressure_hist state
  let base :=
    if (rejection_history.length : ℤ) ≥ window_size then
      let recent_rejections := (history_slice rejection_history window_size).sum
      let recent_rate : ℚ := (recent_rejections : ℚ) / (window_size : ℚ)
      if recent_rate > 0.9 then base * 0.8
      else if recent_rate > 0.8 then base * 0.9
      else if recent_rate < 0.3 ∧ max_pressure > 0.1 then base * 1.2
      else base
    else base
  base + max_pressure

/-- `bouncer.prioritized_deficit_check`: `(found, max criticality)` over the
needed attributes the candidate carries. -/
def prioritized_deficit_check (person : Person) (state : GameState) : Bool × ℚ :=
  let R := state.N - state.admitted_count
  let critical_attrs : List (Attr × ℚ) := state.constraints.filterMap (fun aM =>
    let need := max 0 (aM.2 - aget state.counts aM.1 0)
    if need ≤ 0 then none
    else
      let max_possible : ℚ := (need : ℚ) + (R : ℚ) * aget state.freqs aM.1 1
      let criticality : ℚ := (need : ℚ) / max 0.01 (max_possible - (need : ℚ))
      if pget person aM.1 then some (aM.1, criticality) else none)
  match critical_attrs with
  | [] => (false, 0)
  | x :: xs => (true, xs.foldl (fun m ac => max m ac.2) x.2)

/-- `bouncer.calculate_expected_value` (the computed-but-unused `horizon`
of the source is dropped). -/
def calculate_expected_value (person : Person) (state : GameState)
    (_future_horizon : ℤ) : ℚ :=
  let R := state.N - state.admitted_count
  let direct_value : ℚ := state.constraints.foldl (fun dv aM =>
    if pget person aM.1 then
      let need := max 0 (aM.2 - aget state.counts aM.1 0)
      if need > 0 then dv + 1 / (max 1 need : ℚ) else dv
    else dv) 0
  let opportunity_cost : ℚ := state.constraints.foldl (fun oc aM =>
    if pget person aM.1 then oc
    else
      let need := max 0 (aM.2 - aget state.counts aM.1 0)
      if need > 0 then
        let scarcity : ℚ := 1 - aget state.freqs aM.1 (1/2)
        oc + scarcity * ((need : ℚ) / (R : ℚ))
      else oc) 0
  let future_value := enhanced_correlation_score person state 3
  direct_value - opportunity_cost + 0.5 * future_value

/-- `bouncer.decide_enhanced` (the `accept_all_after_min_met` logging flag has
no effect on the returned decision and is omitted). -/
def decide_enhanced (person : Person) (state : GameState) (scenario : ℤ)
    (rejection_history : List ℤ) : Bool :=
  let config := SCENARIO_CONFIGS scenario
  if !hard_safety person state then false
  else if all_constraints_met state then true
  else
    let ac := prioritized_deficit_check person state
    if ac.1 && decide (ac.2 > 0.5) then true
    else
      let R := state.N - state.admitted_count
      if R ≤ config.endgame_size then
        if conservative_endgame person state then
          decide (calculate_expected_value person state R > 0)
        else false
      else
        let base_score :=
          constraint_score person state config.w_help config.w_penalty config.w_corr
        let correlation_bonus := enhanced_correlation_score person state 3
        let total_score := base_score + 0.3 * correlation_bonus
        let threshold := adaptive_threshold_with_history state config.base_start
          rejection_history (min 100 state.total_seen)
        decide (total_score ≥ threshold)

/-- `bouncer.decide_dyn`. -/
def decide_dyn (person : Person) (state : GameState) (endgame_size : ℤ)
    (w_help w_penalty w_corr base_start : ℚ) : Bool :=
  if !hard_safety person state then false
  else if deficit_first person state then true
  else if state.N - state.admitted_count ≤ endgame_size then
    conservative_endgame person state
  else
    decide (constraint_score person state w_help w_penalty w_corr ≥
      dynamic_threshold state base_start)

/-- Models Python's float square root `x ** 0.5`. It agrees with the real
square root on rationals whose reduced numerator and denominator are perfect
squares, which covers every argument reached in the developments below. -/
def ratSqrt (q : ℚ) : ℚ :=
  (Nat.sqrt q.num.toNat : ℚ) / (Nat.sqrt q.den : ℚ)

namespace Scenario1

/-- `scenario1._remaining`. -/
def remaining (state : GameState) : ℤ :=
  max 0 (state.N - state.admitted_count)

/-- `scenario1._need_map`, as the lookup function keyed by the constraint
entries (Python builds the dict by comprehension over `state.constraints`). -/
def needOf (state : GameState) (a : Attr) : ℤ :=
  max 0 (aget state.constraints a 0 - aget state.counts a 0)

/-- `scenario1._must_accept_or_reject_by_feasibility`: `some b` models the
returned `{"force": b}`, `none` models the empty dict (unforced).
Must-accept wins over must-reject, as in the source. -/
def must_accept_or_reject_by_feasibility (person : Person) (state : GameState) :
    Option Bool :=
  let R := remaining state
  let flags : Bool × Bool := state.constraints.foldl (fun fl aM =>
    let n := max 0 (aM.2 - aget state.counts aM.1 0)
    if R - 1 < n then
      (if pget person aM.1 then (true, fl.2) else (fl.1, true))
    else fl) (false, false)
  if flags.1 then some true
  else if flags.2 then some false
  else none

/-- `scenario1._observed_freq` over the `_ACCEPTED_WINDOW` deque, passed
explicitly as the list of previously accepted candidates. -/
def observed_freq (window : List Person) (attr : Attr) : ℚ :=
  if window.isEmpty then 0
  else
    let cnt : ℤ := window.foldl (fun c p => if pget p attr then c + 1 else c) 0
    (cnt : ℚ) / (window.length : ℚ)

/-- `scenario1._adjusted_p`: prior blended with the accepted-window empirical
frequency, clamped to `[0.01, 0.99]`. -/
def adjusted_p (window : List Person) (attr : Attr) (state : GameState) : ℚ :=
  let prior_p : ℚ := aget state.freqs attr 0.3225
  let obs_p := observed_freq window attr
  let w_obs : ℚ := 0.3 * min 1 ((window.length : ℚ) / 50)
  let w_prior := 1 - w_obs
  let p := w_prior * prior_p + w_obs * obs_p
  max 0.01 (min 0.99 p)

/-- `scenario1._safe_wrong_side_accept`. -/
def safe_wrong_side_accept (window : List Person) (unmet_attr : Attr)
    (state : GameState) : Bool :=
  let R := max 0 (state.N - state.admitted_count)
  if R ≤ 1 then false
  else
    let cur := aget state.counts unmet_attr 0
    let M := aget state.constraints unmet_attr 0
    let need := max 0 (M - cur)
    if need ≤ 0 then true
    else
      let p := adjusted_p window unmet_attr state
      let n := R - 1
      let mu := (n : ℚ) * p
      let var : ℚ := max 0.000001 ((n : ℚ) * p * (1 - p))
      let rem_frac : ℚ :=
        if state.N > 0 then
          max 0 (min 1 (((state.N : ℚ) - (state.admitted_count : ℚ)) / (state.N : ℚ)))
        else 0
      let z : ℚ := 0.3 + 0.5 * rem_frac
      let lcb := mu - z * ratSqrt var
      if (cur : ℚ) + lcb < (M : ℚ) then false
      else
        let k := state.admitted_count
        let Npos := max 1 state.N
        let slack : ℤ := if k < 800 then Int.fdiv (10 * (800 - k)) 800 else 0
        let target_now := Int.fdiv (M * k + (Npos - 1)) Npos + slack
        if cur < target_now then false
        else
          let safety_margin := (cur : ℚ) + mu - (M : ℚ)
          if state.admitted_count < 800 ∧ safety_margin ≥ 20 then true
          else if safety_margin ≥ 40 then true
          else false

/-- `scenario1._safe_accept_neither`. The LCB loop with its early `return
False` is modelled by an `Option`-valued fold collecting the safety margins. -/
def safe_accept_neither (window : List Person) (state : GameState) : Bool :=
  let R := max 0 (state.N - state.admitted_count)
  if R ≤ 1 then false
  else
    let n := R - 1
    if state.constraints.length < 2 then false
    else
      let margins : Option (List ℚ) := state.constraints.foldl (fun acc aM =>
        match acc with
        | none => none
        | some ms =>
          let cur := aget state.counts aM.1 0
          let M := aM.2
          let p := adjusted_p window aM.1 state
          let mu := (n : ℚ) * p
          let var : ℚ := max 0.000001 ((n : ℚ) * p * (1 - p))
          let rem_frac : ℚ :=
            if state.N > 0 then
              max 0 (min 1 (((state.N : ℚ) - (state.admitted_count : ℚ)) / (state.N : ℚ)))
            else 0
          let z : ℚ := 0.3 + 0.5 * rem_frac
          let lcb := mu - z * ratSqrt var
          if (cur : ℚ) + lcb < (M : ℚ) then none
          else some (ms ++ [(cur : ℚ) + mu - (M : ℚ)])) (some [])
      match margins with
      | none => false
      | some safety_margins =>
        let k := state.admitted_count
        let Npos := max 1 state.N
        let slack : ℤ := if k < 800 then Int.fdiv (10 * (800 - k)) 800 else 0
        let ahead_schedule_both := state.constraints.all (fun aM =>
          let cur := aget state.counts aM.1 0
          let target_now := Int.fdiv (aM.2 * k + (Npos - 1)) Npos + slack
          !(decide (cur < target_now)))
        let min_margin : ℚ :=
          match safety_margins with
          | [] => 0
          | x :: xs => xs.foldl min x
        if state.admitted_count < 850 ∧ min_margin ≥ 8 then true
        else if ahead_schedule_both then true
        else if min_margin ≥ 30 then true
        else false

/-- `scenario1.decide`, with the module-global `_ACCEPTED_WINDOW` passed
explicitly. Only the returned boolean is modelled; the `_record_accept`
mutation affects later calls, not this decision. The single-attribute
fallback indexes `attrs[0]`, which raises in Python on an empty constraint
dict; that unreached case is modelled as `false`. -/
def decide (window : List Person) (person : Person) (state : GameState)
    (_rejection_history : List ℤ) : Bool :=
  if state.constraints.all (fun aM =>
      Decidable.decide (max 0 (aM.2 - aget state.counts aM.1 0) ≤ 0)) then true
  else
    match must_accept_or_reject_by_feasibility person state with
    | some force => force
    | none =>
      match state.constraints.map Prod.fst with
      | [] => false
      | [a] => pget person a || Decidable.decide (needOf state a ≤ 0)
      | a1 :: a2 :: _ =>
        let has1 := pget person a1
        let has2 := pget person a2
        let accept0 : Bool :=
          if state.admitted_count ≥ 900 then
            Decidable.decide (aget state.constraints a1 0 - aget state.counts a1 0 ≤ 20) &&
            Decidable.decide (aget state.constraints a2 0 - aget state.counts a2 0 ≤ 20) &&
            (has1 || has2)
          else false
        let n1 := needOf state a1
        let n2 := needOf state a2
        let accept1 : Bool :=
          if accept0 then true
          else if n1 > 0 ∧ n2 > 0 then
            (has1 || has2) || safe_accept_neither window state
          else false
        let accept2 : Bool :=
          if accept1 then true
          else if n1 ≤ 0 ∧ n2 > 0 then
            has2 || safe_wrong_side_accept window a2 state
          else false
        let accept3 : Bool :=
          if accept2 then true
          else if n2 ≤ 0 ∧ n1 > 0 then
            has1 || safe_wrong_side_accept window a1 state
          else false
        if accept3 then true
        else (has1 || has2) || safe_accept_neither window state

end Scenario1

namespace Scenario2

/-- Attribute ids of `src/scenario2.py`. -/
def A_T : Attr := "techno_lover"

/-- `well_connected`. -/
def A_W : Attr := "well_connected"

/-- `creative`. -/
def A_C : Attr := "creative"

/-- `berlin_local`. -/
def A_B : Attr := "berlin_local"

/-- `scenario2._remaining`. -/
def remaining (state : GameState) : ℤ :=
  max 0 (state.N - state.admitted_count)

/-- `scenario2._need_map` as a lookup function (`need.get(a, 0)` and `need[a]`
agree with it on constraint keys, and `.get` defaults to 0 off them). -/
def needOf (state : GameState) (a : Attr) : ℤ :=
  max 0 (aget state.constraints a 0 - aget state.counts a 0)

/-- `scenario2._hard_safety`. -/
def hard_safety (person : Person) (state : GameState) : Bool :=
  let R := remaining state
  state.constraints.all (fun aM =>
    !(!(pget person aM.1) &&
      decide (R - 1 < max 0 (aM.2 - aget state.counts aM.1 0))))

/-- `scenario2._endgame_feasible`. -/
def endgame_feasible (person : Person) (state : GameState) : Bool :=
  let R := remaining state
  state.constraints.all (fun aM =>
    let cur := aget state.counts aM.1 0 + (if pget person aM.1 then 1 else 0)
    let exp_max : ℚ :=
      (cur : ℚ) + (max 0 (R - 1) : ℤ) * max 0 (aget state.freqs aM.1 0)
    !(decide (exp_max < (aM.2 : ℚ))))

/-- `scenario2._adaptive_threshold`. -/
def adaptive_threshold (state : GameState) (rejection_history : List ℤ) : ℚ :=
  let progress : ℚ :=
    if state.N ≠ 0 then (state.admitted_count : ℚ) / (state.N : ℚ) else 0
  let base : ℚ := 0.45 * (1 - progress)
  let pressure : ℚ := state.constraints.foldl (fun pr aM =>
    let req : ℚ := if state.N ≠ 0 then (aM.2 : ℚ) / (state.N : ℚ) else 0
    let cur_rate : ℚ :=
      ((aget state.counts aM.1 0 : ℤ) : ℚ) / ((max 1 state.admitted_count : ℤ) : ℚ)
    max pr (req - cur_rate)) 0
  let base :=
    if rejection_history ≠ [] then
      let window := history_slice rejection_history
        (min 100 (rejection_history.length : ℤ))
      let rej_rate : ℚ := (window.sum : ℚ) / (window.length : ℚ)
      if rej_rate > 0.85 then base * 0.8
      else if rej_rate > 0.7 then base * 0.9
      else if rej_rate < 0.25 ∧ pressure > 0.1 then base * 1.15
      else base
    else base
  base + pressure

/-- `scenario2._overlap_needed`. -/
def overlap_needed (state : GameState) (R : ℤ) : ℤ :=
  max 0 (needOf state A_B + needOf state A_T - R)

/-- `scenario2.decide`. Early `return`s become nested `if`-chains; the
`struggling` set is modelled by its membership predicate over constraint
keys (dict keys are unique). -/
def decide (person : Person) (state : GameState)
    (rejection_history : List ℤ) : Bool :=
  if !hard_safety person state then false
  else
    let R := remaining state
    if pget person A_C then true
    else if R ≤ 80 then endgame_feasible person state
    else
      let need_B := needOf state A_B
      let need_T := needOf state A_T
      let need_W := needOf state A_W
      let has_B := pget person A_B
      let has_T := pget person A_T
      let has_W := pget person A_W
      let minT : ℤ := max 1 (aget state.constraints A_T 1)
      let minW : ℤ := max 1 (aget state.constraints A_W 1)
      let ratioT : ℚ := ((aget state.counts A_T 0 : ℤ) : ℚ) / (minT : ℚ)
      let ratioW : ℚ := ((aget state.counts A_W 0 : ℤ) : ℚ) / (minW : ℚ)
      let U : ℤ := (need_B + need_T) - R
      let union_margin : ℤ := max 8 ⌊(0.10 : ℚ) * (R : ℚ)⌋
      if U ≥ union_margin then has_B && has_T
      else if has_B && has_T && Decidable.decide (overlap_needed state R > 0) then true
      else if has_W && !has_B && !has_T && !(pget person A_C) then false
      else
        let pB : ℚ := max 0 (aget state.freqs A_B 0)
        let pT : ℚ := max 0 (aget state.freqs A_T 0)
        if has_B && !has_T && Decidable.decide (need_B > 0) &&
            (Decidable.decide (ratioT ≥ 1) && Decidable.decide (U < union_margin)) then true
        else if has_B && !has_T && Decidable.decide (need_B > 0) &&
            (Decidable.decide (((R : ℚ) - 1) * pT ≥ (need_T : ℚ)) && Decidable.decide (U < 0)) then true
        else if has_T && !has_B && Decidable.decide (need_T > 0) &&
            (Decidable.decide (((R : ℚ) - 1) * pB ≥ (need_B : ℚ)) && Decidable.decide (U < 0)) then true
        else
          let struggling : Attr → Bool := fun a =>
            (alookup state.constraints a).isSome &&
            Decidable.decide (((aget state.counts a 0 : ℤ) : ℚ) /
                ((max 1 (aget state.constraints a 1) : ℤ) : ℚ) <
              (if a == A_B then (0.95 : ℚ)
               else if a == A_T then 0.90 else 0.85))
          let struggling_any : Bool :=
            state.constraints.any (fun aM => struggling aM.1)
          if Decidable.decide (U < union_margin) && struggling_any &&
              (pget person A_C && struggling A_C) then true
          else if Decidable.decide (U < union_margin) && struggling_any &&
              (struggling A_B && has_B && !has_T &&
               Decidable.decide (((R : ℚ) - 1) * pT ≥ (need_T : ℚ))) then true
          else if Decidable.decide (U < union_margin) && struggling_any &&
              (struggling A_T && has_T && !has_B &&
               Decidable.decide (((R : ℚ) - 1) * pB ≥ (need_B : ℚ))) then true
          else if Decidable.decide (U < union_margin) && struggling_any &&
              ((struggling A_B || struggling A_T) && has_B && has_T) then true
          else
            let scarcityD : Dict ℚ := state.constraints.map (fun aM =>
              let p : ℚ := max 0.000001 (aget state.freqs aM.1 0)
              let nd : ℤ := max 0 (aM.2 - aget state.counts aM.1 0)
              let v : ℚ :=
                if R > 0 then min 5 ((nd : ℚ) / max 1 ((R : ℚ) * p))
                else if nd > 0 then 10 else 0
              (aM.1, v))
            let s0 : ℚ := 0
            let s1 := if has_B then s0 + 1.6 * (1 + 2.4 * aget scarcityD A_B 0)
              else if need_B > 0 then s0 - 0.7 * (1 + 1.3 * aget scarcityD A_B 0)
              else s0
            let s2 := if has_T then s1 + 0.7 * (1 + 1.0 * aget scarcityD A_T 0)
              else if need_T > 0 then s1 - 0.35 * (1 + 1.0 * aget scarcityD A_T 0)
              else s1
            let s3 := if has_W then s2 + 0
              else if need_W > 0 then s2 - 0.10 * (1 + 0.3 * aget scarcityD A_W 0)
              else s2
            let s4 := if has_W && !has_B && !has_T && Decidable.decide (ratioW ≥ 1) then
                s3 - 0.4
              else s3
            let s5 := if has_B && has_T then s4 + 2.0 else s4
            let s6 := person.foldl (fun s av =>
              if av.2 then
                state.constraints.foldl (fun s aM =>
                  if max 0 (aM.2 - aget state.counts aM.1 0) ≤ 0 then s
                  else
                    let c : ℚ := aget (aget state.corr av.1 []) aM.1 0
                    if c > 0 then
                      s + 0.12 * c * (1 + 0.6 * aget scarcityD aM.1 0)
                    else s) s
              else s) s5
            let s7 :=
              if (-union_margin ≤ U ∧ U < union_margin) ∧ !(has_B || has_T) then
                s6 - 0.5
              else s6
            Decidable.decide (s7 ≥ adaptive_threshold state rejection_history)

end Scenario2

namespace Scenario3

/-- `scenario3._remaining`. -/
def remaining (state : GameState) : ℤ :=
  max 0 (state.N - state.admitted_count)

/-- `scenario3._need_map` as a lookup function (agrees with the dict on
constraint keys and with `.get(a, 0)` everywhere). -/
def needOf (state : GameState) (a : Attr) : ℤ :=
  max 0 (aget state.constraints a 0 - aget state.counts a 0)

/-- `scenario3._all_constraints_met`. -/
def all_constraints_met (state : GameState) : Bool :=
  state.constraints.all (fun aM => !(decide (aget state.counts aM.1 0 < aM.2)))

/-- `scenario3._hard_safety`. -/
def hard_safety (person : Person) (state : GameState) : Bool :=
  let R := remaining state
  state.constraints.all (fun aM =>
    !(!(pget person aM.1) &&
      decide (R - 1 < max 0 (aM.2 - aget state.counts aM.1 0))))

/-- `scenario3._feasible`. -/
def feasible (person : Person) (state : GameState) : Bool :=
  let R := remaining state
  state.constraints.all (fun aM =>
    let cur := aget state.counts aM.1 0 + (if pget person aM.1 then 1 else 0)
    let exp_max : ℚ :=
      (cur : ℚ) + ((max 0 (R - 1) : ℤ) : ℚ) * max 0 (aget state.freqs aM.1 0)
    !(decide (exp_max < (aM.2 : ℚ))))

/-- `scenario3._expected_value` (the computed-but-unused `H` is dropped). -/
def expected_value (person : Person) (state : GameState) (_horizon : ℤ) : ℚ :=
  let R := remaining state
  let direct : ℚ := state.constraints.foldl (fun d aM =>
    let nd := max 0 (aM.2 - aget state.counts aM.1 0)
    if pget person aM.1 ∧ nd > 0 then d + 1 / ((max 1 nd : ℤ) : ℚ) else d) 0
  let opp_cost : ℚ := state.constraints.foldl (fun o aM =>
    let nd := max 0 (aM.2 - aget state.counts aM.1 0)
    if (!pget person aM.1) ∧ nd > 0 then
      let scarcity : ℚ := 1 - max 0 (min 1 (aget state.freqs aM.1 (1/2)))
      o + scarcity * ((nd : ℚ) / ((max 1 R : ℤ) : ℚ))
    else o) 0
  let corr_bonus : ℚ := person.foldl (fun cb av =>
    if av.2 then
      state.constraints.foldl (fun cb aM =>
        let nd := max 0 (aM.2 - aget state.counts aM.1 0)
        if nd ≤ 0 then cb
        else
          let c := aget (aget state.corr av.1 []) aM.1 0
          if c > 0 then
            cb + 0.5 * c * max 0 (aget state.freqs aM.1 (1/2)) *
              ((nd : ℚ) / ((max 1 R : ℤ) : ℚ))
          else cb) cb
    else cb) 0
  direct - opp_cost + 0.3 * corr_bonus

/-- `scenario3._scarcity_map`. -/
def scarcity_map (state : GameState) : Dict ℚ :=
  let R : ℤ := max 1 (remaining state)
  state.constraints.map (fun aM =>
    let p : ℚ := max 0.000001 (aget state.freqs aM.1 0)
    let nd := max 0 (aM.2 - aget state.counts aM.1 0)
    (aM.1, min 6 ((nd : ℚ) / max 1 ((R : ℚ) * p))))

/-- `scenario3._weights_required_over_base`. -/
def weights_required_over_base (state : GameState) : Dict ℚ :=
  state.constraints.map (fun aM =>
    let req : ℚ := if state.N ≠ 0 then (aM.2 : ℚ) / (state.N : ℚ) else 0
    let p : ℚ := max 0.000001 (aget state.freqs aM.1 0)
    let w : ℚ := if p > 0 then req / p else 5
    (aM.1, max 0.8 (min 6 w)))

/-- `scenario3._adaptive_threshold`. -/
def adaptive_threshold (state : GameState) (rejection_history : List ℤ)
    (base_start : ℚ) (window : ℤ) : ℚ :=
  let progress : ℚ :=
    if state.N ≠ 0 then (state.admitted_count : ℚ) / (state.N : ℚ) else 0
  let base := base_start * (1 - progress)
  let max_pressure : ℚ := state.constraints.foldl (fun mp aM =>
    let req : ℚ := if state.N ≠ 0 then (aM.2 : ℚ) / (state.N : ℚ) else 0
    let cur : ℚ :=
      ((aget state.counts aM.1 0 : ℤ) : ℚ) / ((max 1 state.admitted_count : ℤ) : ℚ)
    max mp (req - cur)) 0
  let base :=
    if window > 0 ∧ (rejection_history.length : ℤ) ≥ window then
      let recent := history_slice rejection_history window
      let rate : ℚ := (recent.sum : ℚ) / (window : ℚ)
      if rate > 0.9 then base * 0.8
      else if rate > 0.8 then base * 0.9
      else if rate < 0.3 ∧ max_pressure > 0.1 then base * 1.15
      else base
    else base
  base + max_pressure

/-- `scenario3.decide`. Early `return`s become nested `if`-chains; the two
`try/except` blocks cannot raise on any input of this model (their divisions
are guarded by `max(1, ...)` and the `max()` call is only reached with at
least the guarded default), so the `except` fallbacks are dead and the
`try` bodies are embedded directly. -/
def decide (person : Person) (state : GameState)
    (rejection_history : List ℤ) : Bool :=
  if !hard_safety person state then false
  else if all_constraints_met state then true
  else
    let R := remaining state
    let scarcity := scarcity_map state
    let qf := pget person "queer_friendly"
    let vc := pget person "vinyl_collector"
    let need_qf := needOf state "queer_friendly"
    let need_vc := needOf state "vinyl_collector"
    let qf_min_padded : ℤ :=
      ⌈((aget state.constraints "queer_friendly" 0 : ℤ) : ℚ) * (1 + 0.06)⌉
    let vc_min_padded : ℤ :=
      ⌈((aget state.constraints "vinyl_collector" 0 : ℤ) : ℚ) * (1 + 0.06)⌉
    let qf_under_padded : Bool :=
      Decidable.decide (aget state.counts "queer_friendly" 0 < qf_min_padded)
    let vc_under_padded : Bool :=
      Decidable.decide (aget state.counts "vinyl_collector" 0 < vc_min_padded)
    if (qf && qf_under_padded) || (vc && vc_under_padded) then
      if R ≤ 120 ∧ (!feasible person state) then false else true
    else
      let ugv := pget person "underground_veteran"
      let ugv_gate_reject : Bool :=
        if ugv then
          let ugv_need := needOf state "underground_veteran"
          let ugv_ratio : ℚ :=
            ((aget state.counts "underground_veteran" 0 : ℤ) : ℚ) /
              ((max 1 (aget state.constraints "underground_veteran" 0) : ℤ) : ℚ)
          if ugv_need ≤ 0 ∨ ugv_ratio ≥ 1.05 then
            let deficit_hits : ℤ :=
              (["queer_friendly", "vinyl_collector", "german_speaker",
                "international"] : List Attr).foldl (fun c a =>
                if needOf state a > 0 ∧ pget person a then c + 1 else c) 0
            Decidable.decide (deficit_hits < 2)
          else false
        else false
      if ugv_gate_reject then false
      else
        let qf_ratio_min : ℚ :=
          ((aget state.counts "queer_friendly" 0 : ℤ) : ℚ) /
            ((max 1 (aget state.constraints "queer_friendly" 0) : ℤ) : ℚ)
        if qf_ratio_min < 0.9 then
          if qf || vc then
            if R ≤ 120 ∧ (!feasible person state) then false else true
          else
            let gs_ratio_min : ℚ :=
              ((aget state.counts "german_speaker" 0 : ℤ) : ℚ) /
                ((max 1 (aget state.constraints "german_speaker" 0) : ℤ) : ℚ)
            let intl_ratio_min : ℚ :=
              ((aget state.counts "international" 0 : ℤ) : ℚ) /
                ((max 1 (aget state.constraints "international" 0) : ℤ) : ℚ)
            let has_gs := pget person "german_speaker"
            let has_intl := pget person "international"
            if needOf state "german_speaker" > 0 ∨ needOf state "international" > 0 then
              if has_gs ∧ has_intl ∧ (gs_ratio_min < 0.55 ∨ intl_ratio_min < 0.55) then
                if R ≤ 120 ∧ (!feasible person state) then false else true
              else if (has_gs ∨ has_intl) ∧ state.admitted_count % 12 = 0 then
                if R ≤ 120 ∧ (!feasible person state) then false else true
              else false
            else false
        else
          let qf_under := qf_under_padded
          let vc_under := vc_under_padded
          let reservation_reject : Bool :=
            if qf_ratio_min < 0.9 ∧ (qf_under || vc_under) ∧ (!(qf || vc)) then
              let ratio : Attr → ℚ := fun attr =>
                if attr == "queer_friendly" then
                  ((aget state.counts attr 0 : ℤ) : ℚ) / ((max 1 qf_min_padded : ℤ) : ℚ)
                else if attr == "vinyl_collector" then
                  ((aget state.counts attr 0 : ℤ) : ℚ) / ((max 1 vc_min_padded : ℤ) : ℚ)
                else
                  ((aget state.counts attr 0 : ℤ) : ℚ) /
                    ((max 1 (aget state.constraints attr 0) : ℤ) : ℚ)
              let focus_ratio := min (ratio "queer_friendly") (ratio "vinyl_collector")
              if focus_ratio < 0.5 then
                let gs_ok := pget person "german_speaker"
                let intl_ok := pget person "international"
                let ugv1 := pget person "underground_veteran"
                let ff := pget person "fashion_forward"
                if ugv1 || ff then true
                else if !(gs_ok && intl_ok) then true
                else false
              else if focus_ratio < 0.9 then
                let underfilled_90 : List Attr := state.constraints.filterMap (fun aM =>
                  if aM.2 > 0 ∧ ((aget state.counts aM.1 0 : ℤ) : ℚ) < 0.9 * (aM.2 : ℚ)
                  then some aM.1 else none)
                if !(underfilled_90.any (fun a => pget person a)) then true
                else if pget person "underground_veteran" ∧
                    (!(pget person "german_speaker" || pget person "international")) then
                  true
                else false
              else false
            else false
          if reservation_reject then false
          else
            let skip_scarce : Bool :=
              (qf_under || vc_under) && (!(qf || vc)) &&
              Decidable.decide
                (min (((aget state.counts "queer_friendly" 0 : ℤ) : ℚ) /
                    ((max 1 (aget state.constraints "queer_friendly" 0) : ℤ) : ℚ))
                  (((aget state.counts "vinyl_collector" 0 : ℤ) : ℚ) /
                    ((max 1 (aget state.constraints "vinyl_collector" 0) : ℤ) : ℚ)) < 0.5)
            let scarce_hits : List ℚ := state.constraints.filterMap (fun aM =>
              if pget person aM.1 ∧ max 0 (aM.2 - aget state.counts aM.1 0) > 0 then
                some (aget scarcity aM.1 0)
              else none)
            let scarce_ok : Bool :=
              match scarce_hits with
              | [] => false
              | x :: xs => Decidable.decide (xs.foldl max x ≥ 0.7)
            if (!skip_scarce) && scarce_ok then true
            else
              let gs := pget person "german_speaker"
              if qf ∧ vc ∧ (need_qf > 0 ∨ need_vc > 0) then true
              else if (qf ∧ gs) ∧ (need_qf > 0 ∨ needOf state "german_speaker" > 0) then true
              else if (vc ∧ gs) ∧ (need_vc > 0 ∨ needOf state "german_speaker" > 0) then true
              else if (qf ∧ aget scarcity "queer_friendly" 0 ≥ 0.75) ∨
                  (vc ∧ aget scarcity "vinyl_collector" 0 ≥ 0.75) then true
              else if (["queer_friendly", "vinyl_collector", "german_speaker",
                  "international"] : List Attr).any (fun a =>
                  pget person a && Decidable.decide (aget state.constraints a 0 > 0) &&
                  (Decidable.decide (((aget state.counts a 0 : ℤ) : ℚ) <
                      0.9 * ((aget state.constraints a 0 : ℤ) : ℚ)) ||
                    Decidable.decide (aget scarcity a 0 ≥ 0.7))) then true
              else if R ≤ 120 then
                if !feasible person state then false
                else Decidable.decide (expected_value person state R > 0)
              else
                let W := weights_required_over_base state
                let boost : Attr → ℚ := fun a =>
                  if a == "queer_friendly" then 2.0
                  else if a == "vinyl_collector" then 2.0
                  else if a == "german_speaker" then 1.25
                  else if a == "international" then 1.15
                  else 1
                let dampen : Attr → ℚ := fun a =>
                  if a == "underground_veteran" then 0.3
                  else if a == "fashion_forward" then 0.5
                  else 1
                let s1 : ℚ := state.constraints.foldl (fun s aM =>
                  let Sa := aget scarcity aM.1 0
                  let Wa := aget W aM.1 0 * boost aM.1 * dampen aM.1
                  let nd := max 0 (aM.2 - aget state.counts aM.1 0)
                  if pget person aM.1 ∧ nd > 0 then s + 1.0 * Wa * (1 + 0.85 * Sa)
                  else if nd > 0 then s - 0.6 * Wa * (1 + 0.7 * Sa)
                  else s) 0
                let s2 :=
                  if pget person "underground_veteran" ∧
                      needOf state "underground_veteran" ≤ 0 then s1 - 0.8
                  else s1
                let s3 :=
                  if pget person "fashion_forward" ∧
                      needOf state "fashion_forward" ≤ 0 then s2 - 0.25
                  else s2
                let s4 : ℚ := person.foldl (fun s av =>
                  if av.2 then
                    state.constraints.foldl (fun s aM =>
                      let nd := max 0 (aM.2 - aget state.counts aM.1 0)
                      if nd ≤ 0 then s
                      else
                        let c := aget (aget state.corr av.1 []) aM.1 0
                        if c ≤ 0 then s
                        else
                          let Sa := aget scarcity aM.1 0
                          let Wa := aget W aM.1 0 * boost aM.1
                          s + 0.5 * c * Wa * (1 + 0.9 * Sa)) s
                  else s) s3
                let threshold0 := adaptive_threshold state rejection_history 0.6
                  (min 100 (max 10 state.total_seen))
                let max_s : ℚ :=
                  match scarcity with
                  | [] => 0
                  | x :: xs => xs.foldl (fun m q => max m q.2) x.2
                let threshold1 := threshold0 * (1 - min 0.2 (0.05 * max_s))
                let helps : Bool :=
                  (qf && Decidable.decide (need_qf > 0)) ||
                  (vc && Decidable.decide (need_vc > 0)) ||
                  ((["german_speaker", "international"] : List Attr).any (fun a =>
                    pget person a && Decidable.decide (needOf state a > 0)))
                let threshold2 :=
                  if (pget person "underground_veteran" ||
                      pget person "fashion_forward") && !helps then
                    let qf_ratio_p : ℚ :=
                      ((aget state.counts "queer_friendly" 0 : ℤ) : ℚ) /
                        ((max 1 qf_min_padded : ℤ) : ℚ)
                    let vc_ratio_p : ℚ :=
                      ((aget state.counts "vinyl_collector" 0 : ℤ) : ℚ) /
                        ((max 1 vc_min_padded : ℤ) : ℚ)
                    if min qf_ratio_p vc_ratio_p < 0.5 then threshold1 * 1.25
                    else if pget person "underground_veteran" then
                      let ugv_ratio_cur : ℚ :=
                        ((aget state.counts "underground_veteran" 0 : ℤ) : ℚ) /
                          ((max 1 (aget state.constraints "underground_veteran" 0) : ℤ) : ℚ)
                      if ugv_ratio_cur ≥ 1.05 then threshold1 * 1.2
                      else threshold1 * 1.1
                    else threshold1 * 1.1
                  else threshold1
                Decidable.decide (s4 ≥ threshold2)

end Scenario3

/-! Concrete states used to instantiate theorems, witnesses and
counterexamples. -/

/-- A state whose only constraint `a` (need 2) exceeds the remaining
capacity minus one (R = 2): rejecting a candidate lacking `a` is forced. -/
def state1w : GameState := ⟨10, [("a", 2)], [("a", 0)], [], [], 8, 0, [], 0, false⟩

/-- A state with two constraints `a`, `b`, both with need 2 at R = 2: a
candidate holding `a` but not `b` triggers must-accept and must-reject
simultaneously. -/
def state2 : GameState :=
  ⟨10, [("a", 2), ("b", 2)], [("a", 0), ("b", 0)], [], [], 8, 0, [], 0, false⟩

/-- A scenario-2 state in which every constraint is already met and more
than 80 seats remain. -/
def state3cx : GameState :=
  ⟨1000,
   [("techno_lover", 100), ("well_connected", 50), ("creative", 30), ("berlin_local", 80)],
   [("techno_lover", 100), ("well_connected", 50), ("creative", 30), ("berlin_local", 80)],
   [], [], 300, 0, [], 0, false⟩

/-- A state with every constraint met and capacity left. -/
def state3w : GameState := ⟨10, [("a", 1)], [("a", 2)], [], [], 3, 0, [], 0, false⟩

/-- A small satisfied state for the endgame/guard comparison. -/
def state4 : GameState := ⟨10, [("a", 1)], [("a", 1)], [("a", 1/2)], [], 5, 0, [], 0, false⟩

/-- A state with a mild deficit (need 1, R = 500): criticality is far below
0.5, so `decide_enhanced` does not take the deficit shortcut. -/
def state6 : GameState :=
  ⟨1000, [("a", 10)], [("a", 9)], [("a", 1/2)], [], 500, 0, [], 5, false⟩

/-- A well-mixed state for the frequency-update witness. -/
def state8 : GameState := ⟨1000, [], [], [("a", 1/2)], [], 0, 0, [], 5, false⟩

/-- A threshold-controller state with no constraints (pressure 0). -/
def state7 : GameState := ⟨10, [], [], [], [], 0, 0, [], 0, false⟩

/-- The scenario-1 phase-B state of the window-sensitivity counterexample:
attribute `a1` is met, `a2` needs 196 of the remaining 226 seats. -/
def state10 : GameState :=
  ⟨1000, [("a1", 600), ("a2", 900)], [("a1", 600), ("a2", 704)],
   [("a1", 49/50), ("a2", 49/50)], [], 774, 0, [], 0, false⟩

/-- An accepted-candidate window of 50 entries, 19 of which carry both
attributes: it drags `_adjusted_p` from 0.98 down to 0.8. -/
def window10 : List Person :=
  (List.replicate 19 [("a1", true), ("a2", true)]) ++ List.replicate 31 ([] : Person)

/-- A state used to instantiate the missing-attribute equivalence. -/
def state9 : GameState :=
  ⟨100, [("x", 10), ("y", 5)], [("x", 3), ("y", 4)], [("x", 1/2), ("y", 1/4)],
   [("x", [("y", 1/2)])], 20, 0, [("x", 4)], 9, false⟩

/-! Helper lemmas shared by several developments. -/

/-- Evaluation rule for `alookup` on a cons cell. -/
@[simp] theorem alookup_cons {β : Type} (k : Attr) (v : β) (l : Dict β) (a : Attr) :
    alookup ((k, v) :: l) a = if k = a then some v else alookup l a := by
  unfold alookup
  by_cases h : k = a
  · rw [if_pos h]
    rw [List.find?_cons_of_pos]
    · rfl
    · simp [h]
  · rw [if_neg h]
    rw [List.find?_cons_of_neg]
    simp [h]

/-- Evaluation rule for `alookup` on the empty dict. -/
@[simp] theorem alookup_nil {β : Type} (a : Attr) :
    alookup ([] : Dict β) a = none := rfl

/-- Evaluation rule for `aget`. -/
theorem aget_eq {β : Type} (m : Dict β) (a : Attr) (d : β) :
    aget m a d = (alookup m a).getD d := rfl

/-- A list-`all` is false as soon as one member fails the predicate. -/
theorem all_eq_false_of_mem {α : Type} {l : List α} {p : α → Bool} {x : α}
    (hx : x ∈ l) (hpx : p x = false) : l.all p = false := by
  rw [Bool.eq_false_iff]
  intro h
  rw [List.all_eq_true] at h
  have hh := h x hx
  rw [hpx] at hh
  exact Bool.false_ne_true hh

/-- C1: if some constrained attribute the candidate lacks has
`(R - 1) < need[a]` and no attribute signals must-accept, then both
`decide_enhanced` and `decide_dyn` reject, whatever the scenario, the
score weights, the threshold parameters and the rejection history are. -/
theorem C1_guard_rejects_first (person : Person) (state : GameState)
    (scenario : ℤ) (rejection_history : List ℤ) (endgame_size : ℤ)
    (w_help w_penalty w_corr base_start : ℚ)
    (hrej : ∃ aM ∈ state.constraints, pget person aM.1 = false ∧
      state.N - state.admitted_count - 1 <
        max 0 (aM.2 - aget state.counts aM.1 0))
    (_hnoaccept : ∀ aM ∈ state.constraints, pget person aM.1 = true →
      ¬(state.N - state.admitted_count - 1 <
        max 0 (aM.2 - aget state.counts aM.1 0))) :
    decide_enhanced person state scenario rejection_history = false ∧
    decide_dyn person state endgame_size w_help w_penalty w_corr base_start = false := by
  have hhs : hard_safety person state = false := by
    obtain ⟨aM, hmem, hlack, hlt⟩ := hrej
    unfold hard_safety
    refine all_eq_false_of_mem hmem ?_
    simp only [hlack, hlt]
    simp
  constructor
  · unfold decide_enhanced
    rw [hhs]
    rfl
  · unfold decide_dyn
    rw [hhs]
    rfl

/-- C1 witness: the hypotheses of `C1_guard_rejects_first` hold at
`state1w` with the empty candidate. -/
theorem C1_witness :
    decide_enhanced [] state1w 2 [] = false ∧
    decide_dyn [] state1w 50 2 0.5 0.2 0.5 = false :=
  C1_guard_rejects_first [] state1w 2 [] 50 2 0.5 0.2 0.5
    (by decide) (by decide)

/-- C5 counterexample: at `totalObserved = 1001` the prior weight
`min(0.9, 100/1001)` is below 0.1, so there is no 10% floor. -/
theorem C5_counterexample : (1 : ℤ) ≤ 1001 ∧ prior_weight 1001 100 < 0.1 := by
  constructor
  · decide
  · unfold prior_weight
    norm_num

/-- C5 (amended): the prior weight is at least 0.1 exactly while at most
1000 candidates have been observed; beyond that it keeps decaying. -/
theorem C5_weight_floor (t : ℤ) (h1 : 1 ≤ t) (h2 : t ≤ 1000) :
    0.1 ≤ prior_weight t 100 := by
  unfold prior_weight
  rw [max_eq_right h1]
  have ht : (1 : ℚ) ≤ (t : ℚ) := by exact_mod_cast h1
  have ht1000 : (t : ℚ) ≤ 1000 := by exact_mod_cast h2
  have h0 : (0 : ℚ) < (t : ℚ) := lt_of_lt_of_le one_pos ht
  apply le_min
  · norm_num
  · rw [le_div_iff₀ h0]
    nlinarith

/-- C5 witness: the floor holds at `totalObserved = 500`. -/
theorem C5_witness :
    (1 : ℤ) ≤ 500 ∧ (500 : ℤ) ≤ 1000 ∧ 0.1 ≤ prior_weight 500 100 :=
  ⟨by decide, by decide, C5_weight_floor 500 (by decide) (by decide)⟩

/-- C8: `update_adaptive_freqs` keeps every frequency estimate in `[0,1]`
whenever the current estimates are in `[0,1]` and the per-attribute
observation tallies lie between 0 and `total_seen`. -/
theorem C8_update_preserves_range (state : GameState)
    (hf : ∀ af ∈ state.freqs, 0 ≤ af.2 ∧ af.2 ≤ 1)
    (hs : ∀ a : Attr, 0 ≤ aget state.seen_counts a 0 ∧
      aget state.seen_counts a 0 ≤ state.total_seen) :
    ∀ af ∈ (update_adaptive_freqs state 100).freqs, 0 ≤ af.2 ∧ af.2 ≤ 1 := by
  intro af haf
  unfold update_adaptive_freqs at haf
  by_cases ht : state.total_seen ≤ 0
  · rw [if_pos ht] at haf
    exact hf af haf
  · rw [if_neg ht] at haf
    simp only [List.mem_map] at haf
    obtain ⟨bf, hbf, heq⟩ := haf
    subst heq
    have hb := hf bf hbf
    have hse := hs bf.1
    have htpos : (0 : ℤ) < state.total_seen := by omega
    have htQ : (0 : ℚ) < (state.total_seen : ℚ) := by exact_mod_cast htpos
    set w := prior_weight state.total_seen 100 with hw
    have hw0 : 0 ≤ w := by
      rw [hw]
      unfold prior_weight
      apply le_min
      · norm_num
      · positivity
    have hw1 : w ≤ 1 := by
      rw [hw]
      unfold prior_weight
      calc min 0.9 ((100 : ℚ) / ((max 1 state.total_seen : ℤ) : ℚ)) ≤ 0.9 :=
            min_le_left _ _
        _ ≤ 1 := by norm_num
    set obs : ℚ := ((aget state.seen_counts bf.1 0 : ℤ) : ℚ) / (state.total_seen : ℚ)
      with hobs
    have hobs0 : 0 ≤ obs := by
      rw [hobs]
      apply div_nonneg _ (le_of_lt htQ)
      exact_mod_cast hse.1
    have hobs1 : obs ≤ 1 := by
      rw [hobs]
      rw [div_le_one htQ]
      exact_mod_cast hse.2
    constructor
    · dsimp only
      nlinarith [hb.1, hb.2]
    · dsimp only
      nlinarith [hb.1, hb.2]

/-- C8 witness: at `state8` the refreshed estimate of `a` stays in `[0,1]`. -/
theorem C8_witness :
    0 ≤ aget (update_adaptive_freqs state8 100).freqs "a" 0 ∧
    aget (update_adaptive_freqs state8 100).freqs "a" 0 ≤ 1 := by
  have h := C8_update_preserves_range state8
    (by
      intro af haf
      simp only [state8, List.mem_singleton] at haf
      subst haf
      norm_num)
    (by
      intro a
      simp only [state8, aget, alookup, List.find?_nil, Option.map_none, Option.getD_none]
      norm_num)
  refine h ("a", aget (update_adaptive_freqs state8 100).freqs "a" 0) ?_
  norm_num [update_adaptive_freqs, prior_weight, state8, aget_eq, List.map]

/-- C3 counterexample: in `state3cx` every constraint is met and seats
remain, yet scenario 2 rejects a `well_connected`-only candidate (its
`decide` has no accept-all-once-satisfied step and dismisses W-only
candidates outright). -/
theorem C3_counterexample :
    (∀ aM ∈ state3cx.constraints, aM.2 ≤ aget state3cx.counts aM.1 0) ∧
    state3cx.admitted_count < state3cx.N ∧
    Scenario2.decide [("well_connected", true)] state3cx [] = false := by
  refine ⟨?_, ?_, ?_⟩
  · intro aM hm
    simp only [state3cx, List.mem_cons, List.mem_singleton, List.not_mem_nil,
      or_false] at hm
    rcases hm with rfl | rfl | rfl | rfl <;> norm_num +decide [aget_eq, state3cx]
  · norm_num [state3cx]
  · norm_num +decide [Scenario2.decide, Scenario2.hard_safety, Scenario2.remaining,
      Scenario2.needOf, Scenario2.endgame_feasible, Scenario2.adaptive_threshold,
      Scenario2.overlap_needed, Scenario2.A_T, Scenario2.A_W, Scenario2.A_C,
      Scenario2.A_B, state3cx, aget_eq, pget, List.all, List.any, List.foldl]

/-- C3 (amended): once every constraint is met and capacity remains,
`decide_enhanced` and scenario 3 accept every candidate; scenario 2 does
not share this property. -/
theorem C3_accept_all_once_satisfied (state : GameState)
    (hmet : ∀ aM ∈ state.constraints, aM.2 ≤ aget state.counts aM.1 0)
    (hcap : state.admitted_count < state.N)
    (person : Person) (scenario : ℤ) (rejection_history : List ℤ) :
    decide_enhanced person state scenario rejection_history = true ∧
    Scenario3.decide person state rejection_history = true := by
  have hneed : ∀ aM ∈ state.constraints,
      max 0 (aM.2 - aget state.counts aM.1 0) = 0 := by
    intro aM hm
    have := hmet aM hm
    omega
  have hhs : hard_safety person state = true := by
    unfold hard_safety
    rw [List.all_eq_true]
    intro aM hm
    rw [hneed aM hm]
    have hlt : ¬(state.N - state.admitted_count - 1 < 0) := by omega
    simp [hlt]
  have hhs3 : Scenario3.hard_safety person state = true := by
    unfold Scenario3.hard_safety Scenario3.remaining
    rw [List.all_eq_true]
    intro aM hm
    rw [hneed aM hm]
    have hlt : ¬(max 0 (state.N - state.admitted_count) - 1 < 0) := by omega
    simp [hlt]
  have hacm : all_constraints_met state = true := by
    unfold all_constraints_met
    rw [List.all_eq_true]
    intro aM hm
    have := hmet aM hm
    simp
    omega
  have hacm3 : Scenario3.all_constraints_met state = true := by
    unfold Scenario3.all_constraints_met
    rw [List.all_eq_true]
    intro aM hm
    have := hmet aM hm
    simp
    omega
  constructor
  · unfold decide_enhanced
    rw [hhs, hacm]
    rfl
  · unfold Scenario3.decide
    rw [hhs3, hacm3]
    rfl

/-- C3 witness: `state3w` satisfies the hypotheses and both functions
accept an unrelated candidate. -/
theorem C3_witness :
    decide_enhanced [("z", true)] state3w 2 [] = true ∧
    Scenario3.decide [("z", true)] state3w [] = true :=
  C3_accept_all_once_satisfied state3w
    (by
      intro aM hm
      simp only [state3w, List.mem_singleton] at hm
      subst hm
      norm_num +decide [aget_eq, state3w])
    (by norm_num [state3w]) [("z", true)] 2 []

/-- C4: with capacity remaining and frequency estimates in `[0,1]` for every
constrained attribute, whenever `conservative_endgame` passes a candidate the
worst-case guard `hard_safety` passes it too — equivalently the endgame check
rejects in every case the guard rejects. -/
theorem C4_endgame_stricter_than_guard (person : Person) (state : GameState)
    (hcap : state.admitted_count < state.N)
    (hfr : ∀ aM ∈ state.constraints, 0 ≤ aget state.freqs aM.1 0 ∧
      aget state.freqs aM.1 0 ≤ 1)
    (hce : conservative_endgame person state = true) :
    hard_safety person state = true := by
  unfold hard_safety
  rw [List.all_eq_true]
  intro aM hm
  by_contra hbad
  have hlack : pget person aM.1 = false ∧
      state.N - state.admitted_count - 1 <
        max 0 (aM.2 - aget state.counts aM.1 0) := by
    by_cases h1 : pget person aM.1
    · exfalso; exact hbad (by simp [h1])
    · refine ⟨by simpa using h1, ?_⟩
      by_contra h2
      exact hbad (by simp [h1, h2])
  unfold conservative_endgame at hce
  rw [List.all_eq_true] at hce
  have hc := hce aM hm
  rw [hlack.1] at hc
  simp only [Bool.not_eq_true', decide_eq_false_iff_not, not_lt, if_neg
    Bool.false_ne_true] at hc
  -- hc : (M : ℚ) ≤ counts + (R - 1) * freq, to be contradicted
  have hfr' := hfr aM hm
  have hneed := hlack.2
  have hRpos : (1 : ℤ) ≤ state.N - state.admitted_count := by omega
  have hM : aget state.counts aM.1 0 + (state.N - state.admitted_count) ≤ aM.2 := by
    have hmax : max 0 (aM.2 - aget state.counts aM.1 0) =
        aM.2 - aget state.counts aM.1 0 := by omega
    omega
  have hRQ : (1 : ℚ) ≤ ((state.N : ℚ) - (state.admitted_count : ℚ)) := by
    exact_mod_cast hRpos
  have hMQ : ((aget state.counts aM.1 0 : ℤ) : ℚ) +
      ((state.N : ℚ) - (state.admitted_count : ℚ)) ≤ ((aM.2 : ℤ) : ℚ) := by
    exact_mod_cast hM
  push_cast at hc hMQ hRQ
  have hnn : (0 : ℚ) ≤ (state.N : ℚ) - (state.admitted_count : ℚ) - 1 := by linarith
  have hbound := mul_le_mul_of_nonneg_left hfr'.2 hnn
  linarith

/-- C4 witness: at `state4` (constraint met, frequencies in range) the
endgame check passes the empty candidate and so does the guard. -/
theorem C4_witness : hard_safety [] state4 = true :=
  C4_endgame_stricter_than_guard [] state4
    (by norm_num [state4])
    (by
      intro aM hm
      simp only [state4, List.mem_singleton] at hm
      subst hm
      norm_num +decide [aget_eq, state4])
    (by norm_num +decide [conservative_endgame, state4, aget_eq, pget,
      List.all, List.foldl])

/-- C6 counterexample: in `state6` the guard passes, constraints are not all
met and the candidate carries the needy attribute `a`, yet `decide_enhanced`
rejects — its deficit shortcut fires only when the maximum criticality
exceeds 0.5 (here it is 1/250), and the score then falls short of the
threshold. -/
theorem C6_counterexample :
    hard_safety [("a", true)] state6 = true ∧
    all_constraints_met state6 = false ∧
    pget [("a", true)] "a" = true ∧
    aget state6.constraints "a" 0 - aget state6.counts "a" 0 > 0 ∧
    decide_enhanced [("a", true)] state6 2 [] = false := by
  refine ⟨?_, ?_, by norm_num +decide [pget, aget_eq], ?_, ?_⟩
  · norm_num +decide [hard_safety, state6, aget_eq, pget, List.all]
  · norm_num +decide [all_constraints_met, state6, aget_eq, List.all]
  · norm_num +decide [state6, aget_eq]
  · norm_num +decide [decide_enhanced, hard_safety, all_constraints_met,
      prioritized_deficit_check, conservative_endgame, calculate_expected_value,
      enhanced_correlation_score, constraint_score, adaptive_threshold_with_history,
      max_pressure_hist, history_slice, SCENARIO_CONFIGS, state6, aget_eq, pget,
      List.all, List.any, List.foldl, List.filterMap]

/-- C6 (amended): a candidate carrying an attribute with positive deficit is
unconditionally accepted by `decide_dyn` (once the guard passes and not all
constraints are met); `decide_enhanced` additionally requires the maximum
criticality of the carried deficit attributes to exceed 0.5. -/
theorem C6_deficit_first (person : Person) (state : GameState)
    (endgame_size : ℤ) (w_help w_penalty w_corr base_start : ℚ)
    (scenario : ℤ) (rejection_history : List ℤ)
    (hsafe : hard_safety person state = true)
    (hnotmet : all_constraints_met state = false)
    (hdef : ∃ aM ∈ state.constraints,
      aM.2 - aget state.counts aM.1 0 > 0 ∧ pget person aM.1 = true) :
    decide_dyn person state endgame_size w_help w_penalty w_corr base_start = true ∧
    ((prioritized_deficit_check person state).2 > 0.5 →
      decide_enhanced person state scenario rejection_history = true) := by
  obtain ⟨aM, hm, hpos, hhas⟩ := hdef
  constructor
  · have hdf : deficit_first person state = true := by
      unfold deficit_first
      rw [List.any_eq_true]
      exact ⟨aM, hm, by simp [hhas, hpos]⟩
    unfold decide_dyn
    rw [hsafe, hdf]
    rfl
  · intro hcrit
    have hne : (prioritized_deficit_check person state).1 = true := by
      unfold prioritized_deficit_check
      dsimp only
      split
      case h_1 heq =>
        exfalso
        have hnone := List.filterMap_eq_nil_iff.mp heq aM hm
        have h1 : ¬(max 0 (aM.2 - aget state.counts aM.1 0) ≤ 0) := by omega
        simp only [h1, hhas, if_true, if_false, ite_true, ite_false] at hnone
        simp at hnone
      case h_2 x xs heq => rfl
    have hd : Decidable.decide ((prioritized_deficit_check person state).2 > 0.5) =
        true := decide_eq_true hcrit
    unfold decide_enhanced
    simp [hsafe, hnotmet, hne, hd]

/-- C6 witness: the hypotheses of `C6_deficit_first` hold at `state6` with
the candidate carrying the needy attribute. -/
theorem C6_witness :
    decide_dyn [("a", true)] state6 50 2 0.5 0.2 0.5 = true ∧
    ((prioritized_deficit_check [("a", true)] state6).2 > 0.5 →
      decide_enhanced [("a", true)] state6 2 [] = true) :=
  C6_deficit_first [("a", true)] state6 50 2 0.5 0.2 0.5 2 []
    (by norm_num +decide [hard_safety, state6, aget_eq, pget, List.all])
    (by norm_num +decide [all_constraints_met, state6, aget_eq, List.all])
    ⟨("a", 10), by simp [state6], by norm_num +decide [state6, aget_eq],
      by norm_num +decide [pget, aget_eq]⟩


/-- C7: holding the constraint-pressure term fixed (and, for the
history-aware controller, the same rejection history and window), the
threshold is non-increasing in the admitted total: both controllers return a
smaller-or-equal threshold at the larger admitted count. -/
theorem C7_threshold_monotone (state : GameState) (k1 k2 : ℤ) (base_start : ℚ)
    (rejection_history : List ℤ) (window_size : ℤ)
    (hN : 0 < state.N) (hb : 0 ≤ base_start) (hk : k1 ≤ k2)
    (hp : max_pressure_dyn {state with admitted_count := k1} =
      max_pressure_dyn {state with admitted_count := k2})
    (hph : max_pressure_hist {state with admitted_count := k1} =
      max_pressure_hist {state with admitted_count := k2}) :
    dynamic_threshold {state with admitted_count := k2} base_start ≤
      dynamic_threshold {state with admitted_count := k1} base_start ∧
    adaptive_threshold_with_history {state with admitted_count := k2} base_start
        rejection_history window_size ≤
      adaptive_threshold_with_history {state with admitted_count := k1} base_start
        rejection_history window_size := by
  have hNQ : (0 : ℚ) < (state.N : ℚ) := by exact_mod_cast hN
  have hkQ : (k1 : ℚ) ≤ (k2 : ℚ) := by exact_mod_cast hk
  have hdiv : (k1 : ℚ) / (state.N : ℚ) ≤ (k2 : ℚ) / (state.N : ℚ) :=
    div_le_div_of_nonneg_right hkQ (le_of_lt hNQ)
  have hbase : base_start * (1 - (k2 : ℚ) / (state.N : ℚ)) ≤
      base_start * (1 - (k1 : ℚ) / (state.N : ℚ)) :=
    mul_le_mul_of_nonneg_left (by linarith) hb
  constructor
  · unfold dynamic_threshold
    dsimp only
    rw [if_pos hN, if_pos hN, ← hp]
    exact add_le_add_right hbase _
  · unfold adaptive_threshold_with_history
    dsimp only
    rw [← hph]
    split_ifs with h1 h2 h3 h4 <;> nlinarith [hbase]

/-- C7 witness: at the constraint-free `state7` the pressure terms coincide
and the thresholds decay between admitted counts 2 and 5. -/
theorem C7_witness :
    dynamic_threshold {state7 with admitted_count := 5} 0.5 ≤
      dynamic_threshold {state7 with admitted_count := 2} 0.5 ∧
    adaptive_threshold_with_history {state7 with admitted_count := 5} 0.5 [] 100 ≤
      adaptive_threshold_with_history {state7 with admitted_count := 2} 0.5 [] 100 :=
  C7_threshold_monotone state7 2 5 0.5 [] 100 (by norm_num [state7])
    (by norm_num) (by norm_num) rfl rfl

/-- The must-accept flag of `scenario1._must_accept_or_reject_by_feasibility`
is set whenever it enters set, or some listed constraint the candidate
carries has `(R - 1) < need`. -/
theorem s1_flags_fst_true (person : Person) (state : GameState) :
    ∀ (l : List (Attr × ℤ)) (fl : Bool × Bool),
      (fl.1 = true ∨ ∃ aM ∈ l, pget person aM.1 = true ∧
        Scenario1.remaining state - 1 < max 0 (aM.2 - aget state.counts aM.1 0)) →
      (l.foldl (fun fl aM =>
        let n := max 0 (aM.2 - aget state.counts aM.1 0)
        if Scenario1.remaining state - 1 < n then
          (if pget person aM.1 then (true, fl.2) else (fl.1, true))
        else fl) fl).1 = true := by
  intro l
  induction l with
  | nil =>
    intro fl h
    rcases h with h | ⟨aM, hm, _⟩
    · exact h
    · cases hm
  | cons y l ih =>
    intro fl h
    rw [List.foldl_cons]
    rcases h with h | ⟨aM, hm, hp, hlt⟩
    · apply ih
      left
      dsimp only
      split_ifs with h1 h2 <;> simp [h]
    · rcases List.mem_cons.mp hm with rfl | hm'
      · apply ih
        left
        dsimp only
        rw [if_pos hlt, if_pos hp]
      · exact ih _ (Or.inr ⟨aM, hm', hp, hlt⟩)

/-- With a must-accept trigger present, the scenario-1 feasibility helper
forces Accept (must-accept wins over must-reject). -/
theorem s1_must_accept_some_true (person : Person) (state : GameState)
    (hacc : ∃ aM ∈ state.constraints, pget person aM.1 = true ∧
      Scenario1.remaining state - 1 < max 0 (aM.2 - aget state.counts aM.1 0)) :
    Scenario1.must_accept_or_reject_by_feasibility person state = some true := by
  unfold Scenario1.must_accept_or_reject_by_feasibility
  dsimp only
  rw [s1_flags_fst_true person state state.constraints (false, false) (Or.inr hacc)]
  rfl

/-- C2 counterexample: at `state2` the candidate `{a}` triggers must-accept
on `a` and must-reject on `b`, yet `decide_enhanced` and `decide_dyn` both
reject — `bouncer.hard_safety` has no must-accept exemption. -/
theorem C2_counterexample :
    (pget [("a", true)] "a" = true ∧
      state2.N - state2.admitted_count - 1 <
        max 0 (aget state2.constraints "a" 0 - aget state2.counts "a" 0)) ∧
    (pget [("a", true)] "b" = false ∧
      state2.N - state2.admitted_count - 1 <
        max 0 (aget state2.constraints "b" 0 - aget state2.counts "b" 0)) ∧
    decide_enhanced [("a", true)] state2 2 [] = false ∧
    decide_dyn [("a", true)] state2 50 2 0.5 0.2 0.5 = false := by
  refine ⟨⟨?_, ?_⟩, ⟨?_, ?_⟩, ?_, ?_⟩ <;>
    norm_num +decide [decide_enhanced, decide_dyn, hard_safety, deficit_first,
      all_constraints_met, prioritized_deficit_check, conservative_endgame,
      calculate_expected_value, enhanced_correlation_score, constraint_score,
      adaptive_threshold_with_history, dynamic_threshold, max_pressure_hist,
      max_pressure_dyn, history_slice, SCENARIO_CONFIGS, state2, aget_eq, pget,
      List.all, List.any, List.foldl, List.filterMap]

/-- C2 (amended): the must-accept-dominates tie-break holds for scenario 1's
`decide` (via `_must_accept_or_reject_by_feasibility`); the bouncer decision
functions instead reject on any must-reject signal. -/
theorem C2_s1_must_accept_dominates (window : List Person) (person : Person)
    (state : GameState) (rejection_history : List ℤ)
    (hacc : ∃ aM ∈ state.constraints, pget person aM.1 = true ∧
      Scenario1.remaining state - 1 < max 0 (aM.2 - aget state.counts aM.1 0)) :
    Scenario1.decide window person state rejection_history = true := by
  unfold Scenario1.decide
  split
  · rfl
  · rw [s1_must_accept_some_true person state hacc]

/-- C2 witness: scenario 1 accepts the conflicted candidate of `state2`. -/
theorem C2_witness :
    Scenario1.decide [] [("a", true)] state2 [] = true :=
  C2_s1_must_accept_dominates [] [("a", true)] state2 []
    ⟨("a", 2), by simp [state2], by norm_num +decide [pget, aget_eq],
      by norm_num +decide [Scenario1.remaining, state2, aget_eq]⟩

/-- C10 counterexample: with the same `(person, state, rejection_history)`,
scenario 1's `decide` answers differently for two contents of the module
window `_ACCEPTED_WINDOW` (empty versus `window10`): the window feeds
`_adjusted_p`, whose drop from 0.98 to 0.8 flips the wrong-side LCB check. -/
theorem C10_counterexample :
    Scenario1.decide [] [] state10 [] = true ∧
    Scenario1.decide window10 [] state10 [] = false := by
  constructor <;>
  · norm_num +decide [Scenario1.decide, Scenario1.must_accept_or_reject_by_feasibility,
      Scenario1.remaining, Scenario1.needOf, Scenario1.safe_wrong_side_accept,
      Scenario1.safe_accept_neither, Scenario1.adjusted_p, Scenario1.observed_freq,
      ratSqrt, state10, window10, aget_eq, pget, List.all, List.any, List.foldl,
      List.replicate, Int.fdiv]
    simp only [Int.reduceToNat]
    norm_num [List.foldl]

/-- C10 (amended): scenario 1's `decide` is a deterministic function of its
explicit arguments TOGETHER WITH the `_ACCEPTED_WINDOW` contents: calls
agreeing on all four coincide. -/
theorem C10_window_determinism (w1 w2 : List Person) (person : Person)
    (state : GameState) (rejection_history : List ℤ) (hw : w1 = w2) :
    Scenario1.decide w1 person state rejection_history =
      Scenario1.decide w2 person state rejection_history := by
  rw [hw]

/-- C10 witness: determinism instantiated at the counterexample input. -/
theorem C10_witness :
    Scenario1.decide window10 [] state10 [] =
      Scenario1.decide window10 [] state10 [] :=
  C10_window_determinism window10 window10 [] state10 [] rfl

/-- `find?` misses when the key is absent. -/
theorem find?_eq_none_of_not_key {l : Person} {b : Attr}
    (h : b ∉ l.map Prod.fst) :
    List.find? (fun p => p.1 == b) l = none := by
  rw [List.find?_eq_none]
  intro x hx
  simp only [beq_iff_eq]
  intro hx1
  exact h (List.mem_map.mpr ⟨x, hx, hx1⟩)

/-- Removing an explicit `(a, false)` entry (the key occurring nowhere else)
changes no lookup: a missing attribute reads as `false`. -/
theorem pget_middle_false (l1 l2 : Person) (a : Attr)
    (h : a ∉ (l1 ++ l2).map Prod.fst) (b : Attr) :
    pget (l1 ++ (a, false) :: l2) b = pget (l1 ++ l2) b := by
  induction l1 with
  | nil =>
    simp only [List.nil_append] at h ⊢
    unfold pget aget alookup
    by_cases hab : ((fun p => p.1 == b) (a, false)) = true
    · rw [@List.find?_cons_of_pos _ (fun p => p.1 == b) (a, false) l2 hab]
      have hb : b ∉ l2.map Prod.fst := by
        simp only [beq_iff_eq] at hab
        exact fun hmem => h (hab ▸ hmem)
      rw [find?_eq_none_of_not_key hb]
      rfl
    · rw [@List.find?_cons_of_neg _ (fun p => p.1 == b) (a, false) l2 hab]
  | cons y l1' ih =>
    have h' : a ∉ (l1' ++ l2).map Prod.fst := by
      intro hm
      exact h (by simpa using Or.inr (by simpa using hm))
    have ihy := ih h'
    unfold pget aget alookup at ihy ⊢
    rw [List.cons_append, List.cons_append]
    by_cases hyb : ((fun p => p.1 == b) y) = true
    · rw [@List.find?_cons_of_pos _ (fun p => p.1 == b) y (l1' ++ (a, false) :: l2) hyb,
        @List.find?_cons_of_pos _ (fun p => p.1 == b) y (l1' ++ l2) hyb]
    · rw [@List.find?_cons_of_neg _ (fun p => p.1 == b) y (l1' ++ (a, false) :: l2) hyb,
        @List.find?_cons_of_neg _ (fun p => p.1 == b) y (l1' ++ l2) hyb]
      exact ihy

/-- A fold that ignores `false`-valued entries does not see an
`(a, false)` entry. -/
theorem foldl_skip_false {β : Type} (f : β → Attr × Bool → β)
    (hf : ∀ s x, f s (x, false) = s) (l1 l2 : Person) (a : Attr) (init : β) :
    (l1 ++ (a, false) :: l2).foldl f init = (l1 ++ l2).foldl f init := by
  rw [List.foldl_append, List.foldl_append, List.foldl_cons, hf]

/-- `hard_safety` only reads the candidate through lookups. -/
theorem hard_safety_erase (l1 l2 : Person) (a : Attr) (state : GameState)
    (h : a ∉ (l1 ++ l2).map Prod.fst) :
    hard_safety (l1 ++ (a, false) :: l2) state = hard_safety (l1 ++ l2) state := by
  simp only [hard_safety, pget_middle_false l1 l2 a h]

/-- `deficit_first` only reads the candidate through lookups. -/
theorem deficit_first_erase (l1 l2 : Person) (a : Attr) (state : GameState)
    (h : a ∉ (l1 ++ l2).map Prod.fst) :
    deficit_first (l1 ++ (a, false) :: l2) state = deficit_first (l1 ++ l2) state := by
  simp only [deficit_first, pget_middle_false l1 l2 a h]

/-- `conservative_endgame` only reads the candidate through lookups. -/
theorem conservative_endgame_erase (l1 l2 : Person) (a : Attr) (state : GameState)
    (h : a ∉ (l1 ++ l2).map Prod.fst) :
    conservative_endgame (l1 ++ (a, false) :: l2) state =
      conservative_endgame (l1 ++ l2) state := by
  simp only [conservative_endgame, pget_middle_false l1 l2 a h]

/-- `prioritized_deficit_check` only reads the candidate through lookups. -/
theorem prioritized_deficit_check_erase (l1 l2 : Person) (a : Attr) (state : GameState)
    (h : a ∉ (l1 ++ l2).map Prod.fst) :
    prioritized_deficit_check (l1 ++ (a, false) :: l2) state =
      prioritized_deficit_check (l1 ++ l2) state := by
  simp only [prioritized_deficit_check, pget_middle_false l1 l2 a h]

/-- `enhanced_correlation_score` iterates the candidate but skips
`false`-valued entries. -/
theorem enhanced_correlation_score_erase (l1 l2 : Person) (a : Attr)
    (state : GameState) (d : ℤ) (_h : a ∉ (l1 ++ l2).map Prod.fst) :
    enhanced_correlation_score (l1 ++ (a, false) :: l2) state d =
      enhanced_correlation_score (l1 ++ l2) state d := by
  unfold enhanced_correlation_score
  rw [foldl_skip_false _ (by intro s x; simp) l1 l2 a 0]

/-- `constraint_score` reads the candidate through lookups and a
`false`-skipping iteration. -/
theorem constraint_score_erase (l1 l2 : Person) (a : Attr) (state : GameState)
    (w_help w_penalty w_corr : ℚ) (h : a ∉ (l1 ++ l2).map Prod.fst) :
    constraint_score (l1 ++ (a, false) :: l2) state w_help w_penalty w_corr =
      constraint_score (l1 ++ l2) state w_help w_penalty w_corr := by
  unfold constraint_score
  simp only [pget_middle_false l1 l2 a h]
  rw [foldl_skip_false _ (by intro s x; simp) l1 l2 a]

/-- `calculate_expected_value` inherits insensitivity from its parts. -/
theorem calculate_expected_value_erase (l1 l2 : Person) (a : Attr)
    (state : GameState) (fh : ℤ) (h : a ∉ (l1 ++ l2).map Prod.fst) :
    calculate_expected_value (l1 ++ (a, false) :: l2) state fh =
      calculate_expected_value (l1 ++ l2) state fh := by
  unfold calculate_expected_value
  simp only [pget_middle_false l1 l2 a h,
    enhanced_correlation_score_erase l1 l2 a state 3 h]

/-- `decide_enhanced` inherits insensitivity from its parts. -/
theorem decide_enhanced_erase (l1 l2 : Person) (a : Attr) (state : GameState)
    (scenario : ℤ) (rejection_history : List ℤ)
    (h : a ∉ (l1 ++ l2).map Prod.fst) :
    decide_enhanced (l1 ++ (a, false) :: l2) state scenario rejection_history =
      decide_enhanced (l1 ++ l2) state scenario rejection_history := by
  unfold decide_enhanced
  simp only [hard_safety_erase l1 l2 a state h,
    prioritized_deficit_check_erase l1 l2 a state h,
    conservative_endgame_erase l1 l2 a state h,
    calculate_expected_value_erase l1 l2 a state _ h,
    enhanced_correlation_score_erase l1 l2 a state 3 h,
    constraint_score_erase l1 l2 a state _ _ _ h]

/-- `decide_dyn` inherits insensitivity from its parts. -/
theorem decide_dyn_erase (l1 l2 : Person) (a : Attr) (state : GameState)
    (endgame_size : ℤ) (w_help w_penalty w_corr base_start : ℚ)
    (h : a ∉ (l1 ++ l2).map Prod.fst) :
    decide_dyn (l1 ++ (a, false) :: l2) state endgame_size w_help w_penalty
        w_corr base_start =
      decide_dyn (l1 ++ l2) state endgame_size w_help w_penalty w_corr base_start := by
  unfold decide_dyn
  simp only [hard_safety_erase l1 l2 a state h,
    deficit_first_erase l1 l2 a state h,
    conservative_endgame_erase l1 l2 a state h,
    constraint_score_erase l1 l2 a state _ _ _ h]

/-- The scenario-1 forced-decision helper only reads the candidate through
lookups. -/
theorem s1_must_accept_erase (l1 l2 : Person) (a : Attr) (state : GameState)
    (h : a ∉ (l1 ++ l2).map Prod.fst) :
    Scenario1.must_accept_or_reject_by_feasibility (l1 ++ (a, false) :: l2) state =
      Scenario1.must_accept_or_reject_by_feasibility (l1 ++ l2) state := by
  simp only [Scenario1.must_accept_or_reject_by_feasibility,
    pget_middle_false l1 l2 a h]

/-- Scenario 1 `decide` is insensitive to explicit `false` entries. -/
theorem s1_decide_erase (window : List Person) (l1 l2 : Person) (a : Attr)
    (state : GameState) (rejection_history : List ℤ)
    (h : a ∉ (l1 ++ l2).map Prod.fst) :
    Scenario1.decide window (l1 ++ (a, false) :: l2) state rejection_history =
      Scenario1.decide window (l1 ++ l2) state rejection_history := by
  unfold Scenario1.decide
  simp only [pget_middle_false l1 l2 a h, s1_must_accept_erase l1 l2 a state h]

/-- Scenario 2 guard: candidate read through lookups only. -/
theorem s2_hard_safety_erase (l1 l2 : Person) (a : Attr) (state : GameState)
    (h : a ∉ (l1 ++ l2).map Prod.fst) :
    Scenario2.hard_safety (l1 ++ (a, false) :: l2) state =
      Scenario2.hard_safety (l1 ++ l2) state := by
  simp only [Scenario2.hard_safety, pget_middle_false l1 l2 a h]

/-- Scenario 2 endgame check: candidate read through lookups only. -/
theorem s2_endgame_feasible_erase (l1 l2 : Person) (a : Attr) (state : GameState)
    (h : a ∉ (l1 ++ l2).map Prod.fst) :
    Scenario2.endgame_feasible (l1 ++ (a, false) :: l2) state =
      Scenario2.endgame_feasible (l1 ++ l2) state := by
  simp only [Scenario2.endgame_feasible, pget_middle_false l1 l2 a h]

/-- Scenario 2 `decide` is insensitive to explicit `false` entries. -/
theorem s2_decide_erase (l1 l2 : Person) (a : Attr) (state : GameState)
    (rejection_history : List ℤ) (h : a ∉ (l1 ++ l2).map Prod.fst) :
    Scenario2.decide (l1 ++ (a, false) :: l2) state rejection_history =
      Scenario2.decide (l1 ++ l2) state rejection_history := by
  unfold Scenario2.decide
  simp only [pget_middle_false l1 l2 a h,
    s2_hard_safety_erase l1 l2 a state h,
    s2_endgame_feasible_erase l1 l2 a state h]
  rw [foldl_skip_false _ (by intro s x; simp) l1 l2 a]

/-- Scenario 3 guard: candidate read through lookups only. -/
theorem s3_hard_safety_erase (l1 l2 : Person) (a : Attr) (state : GameState)
    (h : a ∉ (l1 ++ l2).map Prod.fst) :
    Scenario3.hard_safety (l1 ++ (a, false) :: l2) state =
      Scenario3.hard_safety (l1 ++ l2) state := by
  simp only [Scenario3.hard_safety, pget_middle_false l1 l2 a h]

/-- Scenario 3 endgame check: candidate read through lookups only. -/
theorem s3_feasible_erase (l1 l2 : Person) (a : Attr) (state : GameState)
    (h : a ∉ (l1 ++ l2).map Prod.fst) :
    Scenario3.feasible (l1 ++ (a, false) :: l2) state =
      Scenario3.feasible (l1 ++ l2) state := by
  simp only [Scenario3.feasible, pget_middle_false l1 l2 a h]

/-- Scenario 3 expected value: lookups plus a `false`-skipping iteration. -/
theorem s3_expected_value_erase (l1 l2 : Person) (a : Attr) (state : GameState)
    (hor : ℤ) (h : a ∉ (l1 ++ l2).map Prod.fst) :
    Scenario3.expected_value (l1 ++ (a, false) :: l2) state hor =
      Scenario3.expected_value (l1 ++ l2) state hor := by
  unfold Scenario3.expected_value
  simp only [pget_middle_false l1 l2 a h]
  rw [foldl_skip_false _ (by intro s x; simp) l1 l2 a]

/-- Scenario 3 `decide` is insensitive to explicit `false` entries. -/
theorem s3_decide_erase (l1 l2 : Person) (a : Attr) (state : GameState)
    (rejection_history : List ℤ) (h : a ∉ (l1 ++ l2).map Prod.fst) :
    Scenario3.decide (l1 ++ (a, false) :: l2) state rejection_history =
      Scenario3.decide (l1 ++ l2) state rejection_history := by
  unfold Scenario3.decide
  simp only [pget_middle_false l1 l2 a h,
    s3_hard_safety_erase l1 l2 a state h,
    s3_feasible_erase l1 l2 a state h,
    s3_expected_value_erase l1 l2 a state _ h]
  rw [foldl_skip_false _ (by intro s x; simp) l1 l2 a]

/-- C9: a candidate mapping that stores an attribute `a` explicitly as
`false` (anywhere in the dict, the key occurring only once) decides exactly
like the mapping with the key removed, for every decision function of the
repository: a missing attribute is read as `false` and never errs. -/
theorem C9_missing_attr_defaults_false (l1 l2 : Person) (a : Attr)
    (state : GameState) (window : List Person) (scenario endgame_size : ℤ)
    (w_help w_penalty w_corr base_start : ℚ) (rejection_history : List ℤ)
    (h : a ∉ (l1 ++ l2).map Prod.fst) :
    hard_safety (l1 ++ (a, false) :: l2) state = hard_safety (l1 ++ l2) state ∧
    constraint_score (l1 ++ (a, false) :: l2) state w_help w_penalty w_corr =
      constraint_score (l1 ++ l2) state w_help w_penalty w_corr ∧
    decide_enhanced (l1 ++ (a, false) :: l2) state scenario rejection_history =
      decide_enhanced (l1 ++ l2) state scenario rejection_history ∧
    decide_dyn (l1 ++ (a, false) :: l2) state endgame_size w_help w_penalty
        w_corr base_start =
      decide_dyn (l1 ++ l2) state endgame_size w_help w_penalty w_corr base_start ∧
    Scenario1.decide window (l1 ++ (a, false) :: l2) state rejection_history =
      Scenario1.decide window (l1 ++ l2) state rejection_history ∧
    Scenario2.decide (l1 ++ (a, false) :: l2) state rejection_history =
      Scenario2.decide (l1 ++ l2) state rejection_history ∧
    Scenario3.decide (l1 ++ (a, false) :: l2) state rejection_history =
      Scenario3.decide (l1 ++ l2) state rejection_history :=
  ⟨hard_safety_erase l1 l2 a state h,
   constraint_score_erase l1 l2 a state w_help w_penalty w_corr h,
   decide_enhanced_erase l1 l2 a state scenario rejection_history h,
   decide_dyn_erase l1 l2 a state endgame_size w_help w_penalty w_corr base_start h,
   s1_decide_erase window l1 l2 a state rejection_history h,
   s2_decide_erase l1 l2 a state rejection_history h,
   s3_decide_erase l1 l2 a state rejection_history h⟩

/-- C9 witness: the equivalence instantiated at `state9` with the entry
`("y", false)` removed. -/
theorem C9_witness :
    hard_safety ([("x", true)] ++ ("y", false) :: []) state9 =
      hard_safety ([("x", true)] ++ []) state9 ∧
    constraint_score ([("x", true)] ++ ("y", false) :: []) state9 2 0.5 0.2 =
      constraint_score ([("x", true)] ++ []) state9 2 0.5 0.2 ∧
    decide_enhanced ([("x", true)] ++ ("y", false) :: []) state9 2 [] =
      decide_enhanced ([("x", true)] ++ []) state9 2 [] ∧
    decide_dyn ([("x", true)] ++ ("y", false) :: []) state9 50 2 0.5 0.2 0.5 =
      decide_dyn ([("x", true)] ++ []) state9 50 2 0.5 0.2 0.5 ∧
    Scenario1.decide [] ([("x", true)] ++ ("y", false) :: []) state9 [] =
      Scenario1.decide [] ([("x", true)] ++ []) state9 [] ∧
    Scenario2.decide ([("x", true)] ++ ("y", false) :: []) state9 [] =
      Scenario2.decide ([("x", true)] ++ []) state9 [] ∧
    Scenario3.decide ([("x", true)] ++ ("y", false) :: []) state9 [] =
      Scenario3.decide ([("x", true)] ++ []) state9 [] :=
  C9_missing_attr_defaults_false [("x", true)] [] "y" state9 [] 2 50 2 0.5 0.2 0.5 []
    (by decide)
